import Mathlib

/-!
# Verification of the AI CheckMate document ingestion pipeline

Shallow embedding of `src/main.py` (a Telegram bot that extracts text from a
submitted document and sends it to a language-model service for risk
analysis).  Pure string manipulation is translated directly; the effectful
collaborators (file download, the three extraction libraries, the remote
LLM call, the outgoing `message.reply` calls) are modelled as an explicit
environment record and an observable trace of replies and remote requests.
File download is modelled as succeeding: the transport layer is an external
collaborator outside the pipeline core.
-/

set_option maxRecDepth 100000

namespace AICheckMate

/-! ## Python string primitives used by the source -/

/-- Split a character list at every occurrence of the separator character
(model of Python `str.split(".")`, which keeps empty pieces:
`"".split(".") == [""]`, `"a.b".split(".") == ["a","b"]`). -/
def splitOnChar (c : Char) : List Char → List (List Char)
  | [] => [[]]
  | x :: xs =>
    if x = c then [] :: splitOnChar c xs
    else
      match splitOnChar c xs with
      | [] => [[x]]
      | piece :: pieces => (x :: piece) :: pieces

/-- The last element of a list of character lists, with a default (model of
Python's `[-1]` index, total because `str.split` never returns `[]`). -/
def lastPiece (d : List Char) : List (List Char) → List Char
  | [] => d
  | [x] => x
  | _ :: y :: ys => lastPiece d (y :: ys)

/-- One strip pass over a character list: drop leading whitespace, then
trailing whitespace (model of Python `str.strip()`). -/
def stripChars (l : List Char) : List Char :=
  ((l.dropWhile Char.isWhitespace).reverse.dropWhile Char.isWhitespace).reverse

/-- Model of Python `str.strip()` (used at `main.py:131` and `main.py:86`). -/
def pyStrip (s : String) : String :=
  ⟨stripChars s.data⟩

/-- Model of Python `"sep".join(chunks)` (used at `main.py:49`). -/
def pyJoin (sep : String) : List String → String
  | [] => ""
  | [x] => x
  | x :: y :: xs => x ++ sep ++ pyJoin sep (y :: xs)

/-- Model of Python `x or default` on an optional string: `None` and the
empty string are falsy (used at `main.py:106`). -/
def pyOrStr (x : Option String) (d : String) : String :=
  match x with
  | none => d
  | some s => if s = "" then d else s

/-! ## Configuration constants (`main.py:31-32`, `main.py:81`, `main.py:84`) -/

def _MODEL : String := "gpt-4o-mini"

def _MAX_TOKENS_RESPONSE : Nat := 1200

/-- The clip budget from `text[:60_000]` at `main.py:81`. -/
def CLIP_LIMIT : Nat := 60000

/-- Python `text[:60_000]`: the first 60,000 characters of `text`
(`main.py:81`). -/
def clip (s : String) : String :=
  ⟨s.data.take CLIP_LIMIT⟩

/-! ## Format classification (`main.py:63-65` and the branch at
`main.py:115-125`) -/

/-- `guess_document_type` from `main.py:63-65`:
`filename.lower().split(".")[-1]`.  Lowercasing is modelled per character
with `Char.toLower` (ASCII; all extensions the pipeline distinguishes are
ASCII). -/
def guess_document_type (filename : String) : String :=
  ⟨lastPiece [] (splitOnChar '.' (filename.data.map Char.toLower))⟩

/-- The document kinds distinguished by the dispatch in `handle_document`
(`main.py:117-123`). -/
inductive DocumentKind where
  | pdf
  | docx
  | image
  | unsupported
deriving DecidableEq, Repr

/-- The classification implicit in the `if/elif` chain of `handle_document`
(`main.py:117-123`): which extraction strategy (if any) the extension
returned by `guess_document_type` selects. -/
def classify (filename : String) : DocumentKind :=
  if guess_document_type filename = "pdf" then .pdf
  else if guess_document_type filename = "doc" ∨ guess_document_type filename = "docx" then .docx
  else if guess_document_type filename = "jpg" ∨ guess_document_type filename = "jpeg" ∨
          guess_document_type filename = "png" ∨ guess_document_type filename = "heic" ∨
          guess_document_type filename = "webp" then .image
  else .unsupported

/-! ## PDF extraction (`main.py:43-49`) -/

/-- `extract_text_from_pdf` from `main.py:43-49`.  The parsed PDF is a list
of pages; `page.extract_text()` yields `Option String` (`None` when the page
has no extractable text) and `or ""` turns a falsy result into `""`.  The
chunks are joined with `"\n"`. -/
def extract_text_from_pdf (pages : List (Option String)) : String :=
  pyJoin "\n" (pages.map (fun page => page.getD ""))

/-! ## The analysis client (`main.py:68-86`) -/

/-- The fixed system instruction from `main.py:70-75` (four adjacent Python
string literals, concatenated). -/
def system_prompt : String :=
  "Ты — виртуальный юрист‑ассистент. Проанализируй текст договора, найди потенциальные " ++
  "риски и двусмысленные формулировки. Для каждого риска сформируй: (1) короткое название, " ++
  "(2) цитату из договора, (3) почему опасно простыми словами, (4) совет, как исправить." ++
  "Заверши списком коротких пунктов‑чек‑листа, что проверить перед подписанием."

structure ChatMessage where
  role : String
  content : String
deriving DecidableEq, Repr

/-- The request sent to the chat-completions endpoint (`main.py:77-85`).
`temperature_tenths` records the fixed `temperature=0.3` as tenths. -/
structure AnalysisRequest where
  model : String
  messages : List ChatMessage
  max_tokens : Nat
  temperature_tenths : Nat
deriving DecidableEq, Repr

structure LLMMessage where
  content : String
deriving DecidableEq, Repr

structure LLMChoice where
  message : LLMMessage
deriving DecidableEq, Repr

/-- The remote service's response shape: `{choices: [{message: {content}}]}`. -/
structure LLMResponse where
  choices : List LLMChoice
deriving DecidableEq, Repr

/-- The request constructed inside `analyze_document_text`
(`main.py:77-85`). -/
def buildRequest (text : String) : AnalysisRequest :=
  { model := _MODEL
    messages := [⟨"system", system_prompt⟩, ⟨"user", clip text⟩]
    max_tokens := _MAX_TOKENS_RESPONSE
    temperature_tenths := 3 }

/-- `analyze_document_text` from `main.py:68-86`, with the remote service
abstracted as a function from the request to either a transport error or a
response.  Returns the request it sent together with the outcome:
`response.choices[0].message.content.strip()` on success; an error when the
transport fails or when `choices` is empty (`choices[0]` raises, and the
caller's `except` catches it). -/
def analyze_document_text (service : AnalysisRequest → Except Unit LLMResponse)
    (text : String) : AnalysisRequest × Except Unit String :=
  let req := buildRequest text
  (req,
    match service req with
    | .error _ => .error ()
    | .ok response =>
      match response.choices with
      | [] => .error ()
      | c :: _ => .ok (pyStrip c.message.content))

/-! ## The message handler (`main.py:98-144`) -/

/-- An inbound file event (`main.py:104-109`): either a document with an
optional suggested filename, or a photo given as its size variants' file
ids in ascending resolution order. -/
inductive IncomingMessage where
  | document (fileId : String) (fileName : Option String)
  | photo (fileIds : List String)
deriving DecidableEq, Repr

/-- The filename the handler works with (`main.py:104-109`): the document's
name with fallback `"document"`, or `"photo_<file_id>.jpg"` synthesized from
the highest-resolution photo variant (`message.photo[-1]`). -/
def filenameOf : IncomingMessage → String
  | .document _ fileName => pyOrStr fileName "document"
  | .photo fileIds => "photo_" ++ fileIds.getLastD "" ++ ".jpg"

/-- The effectful collaborators of one invocation: the parsed PDF pages (or
a parse failure) that `pdfplumber.open` would yield, the results of
`docx2txt.process` and `pytesseract.image_to_string`, and the remote
chat-completions service. -/
structure Env where
  pdfDoc : Except Unit (List (Option String))
  docxText : Except Unit String
  ocrText : Except Unit String
  service : AnalysisRequest → Except Unit LLMResponse

/-- The observable behaviour of one invocation: the text replies sent (in
order), the extraction strategies invoked, and the requests made to the
remote analysis service. -/
structure Trace where
  replies : List String
  extractorCalls : List DocumentKind
  llmRequests : List AnalysisRequest
deriving Repr

/-- Reply fixed at `main.py:100`. -/
def ack_message : String := "📥 Получил файл, анализирую… ⏳"

/-- Reply fixed at `main.py:124`. -/
def unsupported_message : String := "❌ Не могу обработать этот тип файла."

/-- Reply fixed at `main.py:128`. -/
def extraction_failed_message : String :=
  "⚠️ Не удалось извлечь текст из файла. Попробуйте другой формат."

/-- Reply fixed at `main.py:132`. -/
def sparse_message : String := "⚠️ Документ почти пустой или текст не распознан."

/-- Reply fixed at `main.py:140`. -/
def analysis_failed_message : String :=
  "⚠️ Не удалось проанализировать документ. Попробуйте позже."

/-- The `if/elif/else` dispatch of `main.py:117-125` plus the surrounding
`try/except` of `main.py:116-129`: `none` when the extension is unsupported
(no strategy invoked), otherwise the invoked strategy's kind and its
outcome. -/
def classifyAndExtract (env : Env) (filename : String) :
    Option (DocumentKind × Except Unit String) :=
  match classify filename with
  | .pdf => some (.pdf, env.pdfDoc.map extract_text_from_pdf)
  | .docx => some (.docx, env.docxText)
  | .image => some (.image, env.ocrText)
  | .unsupported => none

/-- `handle_document` from `main.py:98-144` as a trace function: the
acknowledgment is sent first (`main.py:100`), then the pipeline
short-circuits through classification, extraction, the sparse-content check
(`main.py:131`), and the analysis call, ending with exactly one further
reply. -/
def handle_document (env : Env) (msg : IncomingMessage) : Trace :=
  match classifyAndExtract env (filenameOf msg) with
  | none =>
    { replies := [ack_message, unsupported_message], extractorCalls := [], llmRequests := [] }
  | some (k, .error _) =>
    { replies := [ack_message, extraction_failed_message], extractorCalls := [k], llmRequests := [] }
  | some (k, .ok text) =>
    if (pyStrip text).length < 200 then
      { replies := [ack_message, sparse_message], extractorCalls := [k], llmRequests := [] }
    else
      match analyze_document_text env.service text with
      | (req, .error _) =>
        { replies := [ack_message, analysis_failed_message], extractorCalls := [k],
          llmRequests := [req] }
      | (req, .ok result) =>
        { replies := [ack_message, result], extractorCalls := [k], llmRequests := [req] }

/-! ## The content validator (`main.py:131-133`) -/

inductive ValidationOutcome where
  | Valid
  | InsufficientContent
deriving DecidableEq, Repr

/-- The validation policy inlined at `main.py:131`:
`len(text.strip()) < 200`. -/
def validate (text : String) : ValidationOutcome :=
  if (pyStrip text).length < 200 then .InsufficientContent else .Valid

/-! ## Concrete inputs used by witnesses and counterexamples -/

/-- A 200-character whitespace-free text: exactly at the validation
threshold. -/
def text200 : String := ⟨List.replicate 200 'a'⟩

/-- A 50-character body text, below the validation threshold. -/
def text50 : String := ⟨List.replicate 50 'b'⟩

/-- A 60,001-character text, just over the clip budget. -/
def bigText : String := ⟨List.replicate 60001 'a'⟩

/-- An environment in which every collaborator fails. -/
def envAllFail : Env :=
  { pdfDoc := .error (), docxText := .error (), ocrText := .error ()
    service := fun _ => .error () }

/-- An environment holding a one-page PDF whose page text is `text200`,
with a failing remote service. -/
def envPdfNoLLM : Env :=
  { pdfDoc := .ok [some text200], docxText := .error (), ocrText := .error ()
    service := fun _ => .error () }

/-- A well-formed remote response whose single choice carries padded
content. -/
def respOk : LLMResponse := ⟨[⟨⟨"  итог анализа  "⟩⟩]⟩

/-- An environment holding a one-page PDF whose page text is `text200`,
with a remote service that answers `respOk`. -/
def envPdfOk : Env :=
  { pdfDoc := .ok [some text200], docxText := .error (), ocrText := .error ()
    service := fun _ => .ok respOk }

/-- An environment holding a DOCX whose body text is `text50`. -/
def envDocxShort : Env :=
  { pdfDoc := .error (), docxText := .ok text50, ocrText := .error ()
    service := fun _ => .error () }

/-! ## Helper lemmas -/

/-- `pyJoin` on a cons with a nonempty tail inserts one separator. -/
theorem pyJoin_cons (sep x : String) (xs : List String) (h : xs ≠ []) :
    pyJoin sep (x :: xs) = x ++ sep ++ pyJoin sep xs := by
  cases xs with
  | nil => exact absurd rfl h
  | cons y ys => rfl

/-- When classification is unsupported, the handler replies with the
unsupported-format message and stops: no extractor, no remote call. -/
theorem handle_document_of_unsupported (env : Env) (msg : IncomingMessage)
    (h : classify (filenameOf msg) = .unsupported) :
    handle_document env msg =
      { replies := [ack_message, unsupported_message], extractorCalls := [],
        llmRequests := [] } := by
  simp [handle_document, classifyAndExtract, h]

/-! ## Claim C3 — validation threshold -/

/-- Claim C3: for every extracted text, stripped length strictly below 200
yields `InsufficientContent`, and stripped length at least 200 (in
particular exactly 200) yields `Valid`. -/
theorem c3_validation_threshold (t : String) :
    ((pyStrip t).length < 200 → validate t = .InsufficientContent) ∧
    (200 ≤ (pyStrip t).length → validate t = .Valid) := by
  unfold validate
  constructor
  · intro h
    rw [if_pos h]
  · intro h
    rw [if_neg (Nat.not_lt.mpr h)]

/-- Claim C3 witness: a 200-character whitespace-free text sits exactly on
the boundary and validates as `Valid`. -/
theorem c3_witness :
    200 ≤ (pyStrip text200).length ∧ validate text200 = .Valid :=
  ⟨by decide, (c3_validation_threshold text200).2 (by decide)⟩

/-! ## Claim C4 — clipping -/

/-- Claim C4: clipping returns inputs of length at most 60,000 unchanged,
is idempotent, always yields a prefix of the input, and truncates longer
inputs to exactly 60,000 characters. -/
theorem c4_clip_spec (s : String) :
    (s.length ≤ CLIP_LIMIT → clip s = s) ∧
    clip (clip s) = clip s ∧
    (∃ rest, s.data = (clip s).data ++ rest) ∧
    (CLIP_LIMIT < s.length → (clip s).length = CLIP_LIMIT) := by
  obtain ⟨l⟩ := s
  refine ⟨fun h => ?_, ?_, ?_, fun h => ?_⟩
  · exact String.ext (List.take_of_length_le h)
  · exact String.ext (by simp [clip, List.take_take])
  · exact ⟨l.drop CLIP_LIMIT, (List.take_append_drop CLIP_LIMIT l).symm⟩
  · show (l.take CLIP_LIMIT).length = CLIP_LIMIT
    rw [List.length_take]
    exact Nat.min_eq_left (Nat.le_of_lt h)

/-- Claim C4 witness: a short string is returned unchanged, and a
60,001-character string is clipped to exactly 60,000 characters. -/
theorem c4_witness :
    ("abc" : String).length ≤ CLIP_LIMIT ∧ clip "abc" = "abc" ∧
    CLIP_LIMIT < bigText.length ∧ (clip bigText).length = CLIP_LIMIT := by
  have hb : bigText.length = 60001 := by
    show (List.replicate 60001 'a').length = 60001
    rw [List.length_replicate]
  have h1 : ("abc" : String).length ≤ CLIP_LIMIT := by decide
  have h2 : CLIP_LIMIT < bigText.length := by rw [hb]; decide
  exact ⟨h1, (c4_clip_spec "abc").1 h1, h2, (c4_clip_spec bigText).2.2.2 h2⟩

/-! ## Claim C6 — PDF page concatenation -/

/-- Claim C6: PDF extraction joins the per-page texts in page order with a
single newline separator, a page without extractable text contributing the
empty string; a 3-page document with text only on pages 1 and 3 yields
`"<page1>\n\n<page3>"`, and a textless page is interchangeable with an
empty-text page. -/
theorem c6_pdf_concatenation :
    (∀ p1 p3 : String,
      extract_text_from_pdf [some p1, none, some p3] = p1 ++ "\n" ++ "\n" ++ p3) ∧
    (∀ l1 l2 : List (Option String),
      extract_text_from_pdf (l1 ++ none :: l2) =
        extract_text_from_pdf (l1 ++ some "" :: l2)) ∧
    (∀ (page : Option String) (pages : List (Option String)), pages ≠ [] →
      extract_text_from_pdf (page :: pages) =
        page.getD "" ++ "\n" ++ extract_text_from_pdf pages) := by
  have hcons : ∀ (page : Option String) (pages : List (Option String)), pages ≠ [] →
      extract_text_from_pdf (page :: pages) =
        page.getD "" ++ "\n" ++ extract_text_from_pdf pages := by
    intro page pages h
    unfold extract_text_from_pdf
    rw [List.map_cons, pyJoin_cons]
    simpa using h
  refine ⟨fun p1 p3 => ?_, fun l1 l2 => ?_, hcons⟩
  · apply String.ext
    simp [extract_text_from_pdf, pyJoin]
  · induction l1 with
    | nil => rfl
    | cons x l1 ih =>
      rw [List.cons_append, List.cons_append,
        hcons x (l1 ++ none :: l2) (by simp),
        hcons x (l1 ++ some "" :: l2) (by simp), ih]

/-- Claim C6 witness: a two-page document with text on both pages joins
them with one newline. -/
theorem c6_witness :
    ([some "y"] : List (Option String)) ≠ [] ∧
    extract_text_from_pdf [some "x", some "y"] =
      "x" ++ "\n" ++ extract_text_from_pdf [some "y"] :=
  ⟨by decide, c6_pdf_concatenation.2.2 (some "x") [some "y"] (by decide)⟩

/-! ## Claim C1 — format classification -/

/-- Claim C1 counterexample: the filename `"pdf"` contains no `'.'` (so it
has no extension), yet it classifies as `pdf`, not `unsupported`: Python's
`split(".")[-1]` returns the whole lowercased name when no dot is
present. -/
theorem c1_counterexample :
    ("pdf".data.contains '.') = false ∧
    classify "pdf" = DocumentKind.pdf ∧
    classify "pdf" ≠ DocumentKind.unsupported := by
  refine ⟨by decide, by decide, by decide⟩

/-- Claim C1 (amended): classification maps the last `'.'`-separated
component of the lowercased filename — the whole lowercased filename when
no `'.'` is present — through the fixed extension table; the empty string
and a dotless filename that is not itself a recognized extension (such as
`"document"`) classify as `unsupported`, while a dotless filename equal to
a recognized extension (such as `"pdf"`) classifies as that kind. -/
theorem c1_classification_amended :
    (∀ fn : String,
      (classify fn = DocumentKind.pdf ↔ guess_document_type fn = "pdf") ∧
      (classify fn = DocumentKind.docx ↔
        (guess_document_type fn = "doc" ∨ guess_document_type fn = "docx")) ∧
      (classify fn = DocumentKind.image ↔
        (guess_document_type fn = "jpg" ∨ guess_document_type fn = "jpeg" ∨
         guess_document_type fn = "png" ∨ guess_document_type fn = "heic" ∨
         guess_document_type fn = "webp")) ∧
      (classify fn = DocumentKind.unsupported ↔
        ¬(guess_document_type fn = "pdf" ∨ guess_document_type fn = "doc" ∨
          guess_document_type fn = "docx" ∨ guess_document_type fn = "jpg" ∨
          guess_document_type fn = "jpeg" ∨ guess_document_type fn = "png" ∨
          guess_document_type fn = "heic" ∨ guess_document_type fn = "webp"))) ∧
    classify "" = DocumentKind.unsupported ∧
    classify "document" = DocumentKind.unsupported ∧
    classify "Report.PDF" = DocumentKind.pdf ∧
    classify "archive.DOC" = DocumentKind.docx ∧
    classify "scan.JPeG" = DocumentKind.image ∧
    classify "contract.xlsx" = DocumentKind.unsupported := by
  refine ⟨fun fn => ?_, by decide, by decide, by decide, by decide, by decide, by decide⟩
  unfold classify
  generalize guess_document_type fn = e
  split_ifs with h1 h2 h3
  · subst h1; decide
  · rcases h2 with h | h <;> subst h <;> decide
  · rcases h3 with h | h | h | h | h <;> subst h <;> decide
  · simp_all

/-! ## Claim C2 — reply discipline -/

/-- Claim C2 counterexample: an invocation on an unsupported file sends
two text replies (the acknowledgment, then the failure message), not
exactly one. -/
theorem c2_counterexample :
    (handle_document envAllFail
        (IncomingMessage.document "file1" (some "contract.xlsx"))).replies.length = 2 ∧
    (handle_document envAllFail
        (IncomingMessage.document "file1" (some "contract.xlsx"))).replies.length ≠ 1 := by
  refine ⟨by decide, by decide⟩

/-- Claim C2 (amended): every invocation sends exactly two text replies:
first the fixed acknowledgment, then exactly one of the four enumerated
failure messages or the analysis result text (the stripped content of the
remote response's first choice). -/
theorem c2_reply_structure (env : Env) (msg : IncomingMessage) :
    ∃ r, (handle_document env msg).replies = [ack_message, r] ∧
      (r = unsupported_message ∨ r = extraction_failed_message ∨
       r = sparse_message ∨ r = analysis_failed_message ∨
       ∃ req resp c rest, (handle_document env msg).llmRequests = [req] ∧
         env.service req = .ok resp ∧ resp.choices = c :: rest ∧
         r = pyStrip c.message.content) := by
  cases hce : classifyAndExtract env (filenameOf msg) with
  | none =>
    exact ⟨unsupported_message, by simp [handle_document, hce], Or.inl rfl⟩
  | some p =>
    obtain ⟨k, res⟩ := p
    cases res with
    | error e =>
      exact ⟨extraction_failed_message, by simp [handle_document, hce],
        Or.inr (Or.inl rfl)⟩
    | ok text =>
      by_cases hlen : (pyStrip text).length < 200
      · exact ⟨sparse_message, by simp [handle_document, hce, hlen],
          Or.inr (Or.inr (Or.inl rfl))⟩
      · cases hs : env.service (buildRequest text) with
        | error e =>
          refine ⟨analysis_failed_message, ?_,
            Or.inr (Or.inr (Or.inr (Or.inl rfl)))⟩
          simp [handle_document, hce, hlen, analyze_document_text, hs]
        | ok resp =>
          cases hc : resp.choices with
          | nil =>
            refine ⟨analysis_failed_message, ?_,
              Or.inr (Or.inr (Or.inr (Or.inl rfl)))⟩
            simp [handle_document, hce, hlen, analyze_document_text, hs, hc]
          | cons c rest =>
            refine ⟨pyStrip c.message.content, ?_,
              Or.inr (Or.inr (Or.inr (Or.inr
                ⟨buildRequest text, resp, c, rest, ?_, hs, hc, rfl⟩)))⟩ <;>
              simp [handle_document, hce, hlen, analyze_document_text, hs, hc]

/-! ## Claim C5 — the analysis request and result -/

/-- Claim C5: whenever the pipeline reaches the analysis stage, the remote
service is invoked once with the fixed system instruction and a user
message equal to the extracted text clipped to at most 60,000 characters,
and on a well-formed response the value delivered to the user is the first
choice's content with surrounding whitespace stripped. -/
theorem c5_analysis_request (env : Env) (msg : IncomingMessage)
    (k : DocumentKind) (text : String) (resp : LLMResponse)
    (c : LLMChoice) (rest : List LLMChoice)
    (hext : classifyAndExtract env (filenameOf msg) = some (k, .ok text))
    (hlen : 200 ≤ (pyStrip text).length)
    (hresp : env.service (buildRequest text) = .ok resp)
    (hch : resp.choices = c :: rest) :
    (handle_document env msg).llmRequests = [buildRequest text] ∧
    (buildRequest text).messages =
      [⟨"system", system_prompt⟩, ⟨"user", clip text⟩] ∧
    (clip text).length ≤ CLIP_LIMIT ∧
    (handle_document env msg).replies =
      [ack_message, pyStrip c.message.content] := by
  have hnot : ¬(pyStrip text).length < 200 := Nat.not_lt.mpr hlen
  refine ⟨?_, rfl, ?_, ?_⟩
  · simp [handle_document, hext, hnot, analyze_document_text, hresp, hch]
  · show (text.data.take CLIP_LIMIT).length ≤ CLIP_LIMIT
    rw [List.length_take]
    exact Nat.min_le_left _ _
  · simp [handle_document, hext, hnot, analyze_document_text, hresp, hch]

/-- Claim C5 witness: a one-page PDF at the validation boundary reaches the
analysis stage; the single remote request carries the fixed system prompt
and the clipped page text, and the padded response content comes back
stripped. -/
theorem c5_witness :
    classifyAndExtract envPdfOk
      (filenameOf (IncomingMessage.document "f5" (some "contract.pdf"))) =
        some (.pdf, .ok text200) ∧
    200 ≤ (pyStrip text200).length ∧
    envPdfOk.service (buildRequest text200) = .ok respOk ∧
    respOk.choices = [⟨⟨"  итог анализа  "⟩⟩] ∧
    ((handle_document envPdfOk
        (IncomingMessage.document "f5" (some "contract.pdf"))).llmRequests =
      [buildRequest text200] ∧
     (buildRequest text200).messages =
      [⟨"system", system_prompt⟩, ⟨"user", clip text200⟩] ∧
     (clip text200).length ≤ CLIP_LIMIT ∧
     (handle_document envPdfOk
        (IncomingMessage.document "f5" (some "contract.pdf"))).replies =
      [ack_message, pyStrip (String.mk "  итог анализа  ".data)]) := by
  refine ⟨rfl, by decide, rfl, rfl,
    c5_analysis_request envPdfOk (IncomingMessage.document "f5" (some "contract.pdf"))
      .pdf text200 respOk ⟨⟨"  итог анализа  "⟩⟩ [] rfl (by decide) rfl rfl⟩

/-! ## Claim C7 — sparse content halts the pipeline -/

/-- Claim C7: when the extracted text's stripped length is below 200 the
handler replies with the sparse-content failure message and the remote
analysis service is never called. -/
theorem c7_sparse_halts (env : Env) (msg : IncomingMessage)
    (k : DocumentKind) (text : String)
    (hext : classifyAndExtract env (filenameOf msg) = some (k, .ok text))
    (hlen : (pyStrip text).length < 200) :
    (handle_document env msg).replies = [ack_message, sparse_message] ∧
    (handle_document env msg).llmRequests = [] := by
  refine ⟨?_, ?_⟩ <;> simp [handle_document, hext, hlen]

/-- Claim C7 witness: a DOCX whose body is 50 characters halts at the
sparse-content message with no remote call. -/
theorem c7_witness :
    classifyAndExtract envDocxShort
      (filenameOf (IncomingMessage.document "f2" (some "contract.docx"))) =
        some (.docx, .ok text50) ∧
    (pyStrip text50).length < 200 ∧
    ((handle_document envDocxShort
        (IncomingMessage.document "f2" (some "contract.docx"))).replies =
      [ack_message, sparse_message] ∧
     (handle_document envDocxShort
        (IncomingMessage.document "f2" (some "contract.docx"))).llmRequests = []) :=
  ⟨rfl, by decide,
    c7_sparse_halts envDocxShort (IncomingMessage.document "f2" (some "contract.docx"))
      .docx text50 rfl (by decide)⟩

/-! ## Claim C8 — unsupported format halts immediately -/

/-- Claim C8: when the filename classifies as `unsupported` the handler
immediately replies with the unsupported-format message; no extraction
strategy is invoked and no remote call is made. -/
theorem c8_unsupported_halts (env : Env) (msg : IncomingMessage)
    (h : classify (filenameOf msg) = .unsupported) :
    handle_document env msg =
      { replies := [ack_message, unsupported_message], extractorCalls := [],
        llmRequests := [] } :=
  handle_document_of_unsupported env msg h

/-- Claim C8 witness: `contract.xlsx` fails immediately with the
unsupported-format message. -/
theorem c8_witness :
    classify (filenameOf (IncomingMessage.document "f3" (some "contract.xlsx"))) =
      .unsupported ∧
    handle_document envAllFail (IncomingMessage.document "f3" (some "contract.xlsx")) =
      { replies := [ack_message, unsupported_message], extractorCalls := [],
        llmRequests := [] } :=
  ⟨by decide,
    c8_unsupported_halts envAllFail (IncomingMessage.document "f3" (some "contract.xlsx"))
      (by decide)⟩

/-! ## Claim C9 — analysis failure, single attempt -/

/-- Claim C9: when the remote call errors or the response is malformed
(no choice), the handler replies with the analysis-failed message and the
trace shows exactly one outbound request to the remote service — no
retry. -/
theorem c9_analysis_failure (env : Env) (msg : IncomingMessage)
    (k : DocumentKind) (text : String)
    (hext : classifyAndExtract env (filenameOf msg) = some (k, .ok text))
    (hlen : 200 ≤ (pyStrip text).length)
    (herr : env.service (buildRequest text) = .error () ∨
      ∃ resp, env.service (buildRequest text) = .ok resp ∧ resp.choices = []) :
    (handle_document env msg).replies = [ack_message, analysis_failed_message] ∧
    (handle_document env msg).llmRequests = [buildRequest text] := by
  have hnot : ¬(pyStrip text).length < 200 := Nat.not_lt.mpr hlen
  rcases herr with hs | ⟨resp, hs, hc⟩ <;>
    refine ⟨?_, ?_⟩ <;>
    simp [handle_document, hext, hnot, analyze_document_text, hs, *]

/-- Claim C9 witness: a one-page PDF at the validation boundary with a
failing remote service yields the analysis-failed message after exactly
one outbound request. -/
theorem c9_witness :
    classifyAndExtract envPdfNoLLM
      (filenameOf (IncomingMessage.document "f4" (some "contract.pdf"))) =
        some (.pdf, .ok text200) ∧
    200 ≤ (pyStrip text200).length ∧
    ((handle_document envPdfNoLLM
        (IncomingMessage.document "f4" (some "contract.pdf"))).replies =
      [ack_message, analysis_failed_message] ∧
     (handle_document envPdfNoLLM
        (IncomingMessage.document "f4" (some "contract.pdf"))).llmRequests =
      [buildRequest text200]) :=
  ⟨rfl, by decide,
    c9_analysis_failure envPdfNoLLM (IncomingMessage.document "f4" (some "contract.pdf"))
      .pdf text200 rfl (by decide) (Or.inl rfl)⟩

/-! ## Claim C10 — missing filename falls back to "document" -/

/-- Claim C10: a document event with no suggested filename gets the
fallback name `"document"`, which classifies as `unsupported`, so the
invocation always ends with the unsupported-format failure message. -/
theorem c10_missing_filename_unsupported (env : Env) (fid : String) :
    filenameOf (IncomingMessage.document fid none) = "document" ∧
    classify "document" = DocumentKind.unsupported ∧
    handle_document env (IncomingMessage.document fid none) =
      { replies := [ack_message, unsupported_message], extractorCalls := [],
        llmRequests := [] } :=
  ⟨rfl, by decide,
    handle_document_of_unsupported env (IncomingMessage.document fid none)
      (show classify "document" = DocumentKind.unsupported by decide)⟩

end AICheckMate
